import Mathlib

/-!
Verification of the Entitlement & Commerce Integrity subsystem of the
digital-goods storefront backend.

The development shallowly embeds the backend found under
`backend/src/app` (FastAPI + SQLAlchemy): the relational store becomes an
explicit `Store` record of table rows, every DAO function becomes a pure
Lean function on `Store` (returning `Except` for the fallible ones, with
`Except.error` modelling a raised exception and the implied transaction
rollback), and the route handlers become functions mapping DAO results to
HTTP status codes, exactly as the Python code does.

String helpers (`pyStrip`, `pyToLower`, `containsSub`, `pyEndsWith`,
`posixBasename`, `osPathJoin`) replicate the Python standard-library
operations the code relies on (`str.strip`, `str.lower`, the `in`
operator, `str.endswith`, `os.path.basename`, `os.path.join`), restricted
to the ASCII character ranges these code paths use.
-/

-- Decidable equality of `Except` results, used to evaluate the embedded
-- operations on concrete inputs.
deriving instance DecidableEq for Except

/-- ASCII whitespace as recognised by Python `str.strip` and by the `\s`
class of the search regex (space, tab, newline, vertical tab, form feed,
carriage return). -/
def isPySpace (c : Char) : Bool :=
  c = ' ' || c = '\t' || c = '\n' || c = Char.ofNat 11 || c = Char.ofNat 12 || c = '\r'

/-- Python `str.strip()`: drop leading and trailing whitespace. -/
def pyStrip (s : String) : String :=
  String.mk (((s.data.dropWhile isPySpace).reverse.dropWhile isPySpace).reverse)

/-- Python `str.lower()` (ASCII range). -/
def pyToLower (s : String) : String :=
  String.mk (s.data.map Char.toLower)

/-- Containment of one character list inside another, as in the Python
`in` operator on strings. -/
def listIsInfixOf : List Char → List Char → Bool
  | p, [] => p.isEmpty
  | p, c :: rest => p.isPrefixOf (c :: rest) || listIsInfixOf p rest

/-- Python `pattern in hay` for strings. -/
def containsSub (hay pat : String) : Bool :=
  listIsInfixOf pat.data hay.data

/-- Python `s.endswith(suffix)`. -/
def pyEndsWith (s suffix : String) : Bool :=
  suffix.data.isSuffixOf s.data

/-- The apostrophe character. -/
def apost : Char := Char.ofNat 39

/-- The apostrophe as a one-character string. -/
def apostS : String := String.singleton apost

/-- POSIX `os.path.basename`: everything after the last slash. -/
def posixBasename (p : String) : String :=
  String.mk (p.data.foldl (fun acc c => if c = '/' then [] else acc ++ [c]) [])

/-- POSIX `os.path.join` for two components, as in CPython
`posixpath.join`. -/
def osPathJoin (a b : String) : String :=
  if b.data.head? = some '/' then b
  else if a = "" || a.data.getLast? = some '/' then a ++ b
  else a ++ "/" ++ b

/-! ## Search sanitizer (`app/dao/book_search.py`, `BookSearchDAO`) -/

/-- `BookSearchDAO.MAX_SEARCH_QUERY_LENGTH`. -/
def MAX_SEARCH_QUERY_LENGTH : Nat := 255

/-- The `dangerous_patterns` denylist of
`BookSearchDAO.validate_and_sanitize_query`.  The last Python literal in
the source list is the four-character text backslash-x-0-0, not a NUL
byte, and is embedded as such. -/
def dangerous_patterns : List String := ["--", "/*", "*/", "xp_", "sp_", ";", "\\x00"]

/-- Character class of the anchored allowlist regex of
`BookSearchDAO.validate_and_sanitize_query`: ASCII letters, digits,
whitespace, and the punctuation set hyphen, ampersand, period, comma,
apostrophe, double quote, colon, question mark, exclamation mark. -/
def allowedSearchChar (c : Char) : Bool :=
  c.isAlpha || c.isDigit || isPySpace c ||
    ['-', '&', '.', ',', apost, '"', ':', '?', '!'].contains c

/-- `BookSearchDAO.validate_and_sanitize_query`: reject empty or
whitespace-only input, overlong input, denylisted substrings (checked on
the lowercased text), and any character outside the allowlist; on success
return the stripped original query. -/
def validate_and_sanitize_query (query : String) : Except String String :=
  if query = "" || (pyStrip query).length = 0 then
    .error "Search query cannot be empty"
  else
    let q := pyStrip query
    if q.length > MAX_SEARCH_QUERY_LENGTH then
      .error "Search query exceeds 255 characters"
    else if dangerous_patterns.any (fun p => containsSub (pyToLower q) p) then
      .error "Invalid characters in search query"
    else if !(q.data.all allowedSearchChar) then
      .error "Search contains invalid characters"
    else
      .ok q

/-- The SQL tautology payload (1 OR 1=1 with quotes around the digits),
assembled through `apostS`. -/
def injectionQuery : String :=
  "1" ++ apostS ++ " OR " ++ apostS ++ "1" ++ apostS ++ "=" ++ apostS ++ "1"

/-- The legitimate query about the books of O Brien, its two apostrophes
assembled through `apostS`. -/
def oBrienQuery : String :=
  "O" ++ apostS ++ "Brien" ++ apostS ++ "s books"

/-- A string of 256 letters `a`. -/
def aTimes256 : String := String.mk (List.replicate 256 'a')

/-! ## Data model

One record per relational table.  Rows of the `app.models` ORM package
(`Cart`, `CartItem`, `Order`, `OrderItem` and the catalog columns of
`Book`) are not declared under the repository snapshot; their fields are
reconstructed from every use in `app/dao/cart.py` and `app/dao/orders.py`
and from §3 of the design document.  The two `Book` declarations of the
repository (the catalog one used by the cart/checkout DAOs and the DRM one
of `app/Models/Schemas/book.py`) both map to the `books` table, so a
single record carries the union of their columns.  Monetary amounts
(`Numeric` / `Decimal` in the source) are embedded as integers in
fixed-point minor units; the embedded code paths only ever add and
multiply them, so the representation is exact. -/

/-- An HTTP error response: a `fastapi.HTTPException` with its status code
and detail message. -/
structure HttpError where
  status : Nat
  detail : String
deriving Repr, DecidableEq

/-- A row of the `books` table. -/
structure Book where
  id : Nat
  title : String
  author : String
  description : String
  price : Int
  is_available : Bool
  filepath : String
deriving Repr, DecidableEq

/-- A row of the `purchases` table (`app/Models/Schemas/purchase.py`).
Beyond the auto-increment id, the only data columns are the Auth0 subject
and the book id — there is no payment, amount or completion status column.
The remaining column `purchase_date` is a server-set creation timestamp
that no code path reads, omitted here.  The table declares
`UniqueConstraint` over `auth0_user_id` and `book_id`. -/
structure Purchase where
  id : Nat
  auth0_user_id : String
  book_id : Nat
deriving Repr, DecidableEq

/-- A row of the `carts` table. -/
structure Cart where
  id : Nat
  user_id : String
deriving Repr, DecidableEq

/-- A row of the `cart_items` table; `price_at_addition` is the price
snapshot taken when the line was created. -/
structure CartItem where
  id : Nat
  cart_id : Nat
  book_id : Nat
  quantity : Int
  price_at_addition : Int
deriving Repr, DecidableEq

/-- A row of the `orders` table. -/
structure Order where
  id : Nat
  user_id : String
  order_number : String
  total_amount : Int
  status : String
  payment_method : String
  payment_status : String
  shipping_address : String
deriving Repr, DecidableEq

/-- A row of the `order_items` table: a frozen snapshot of one purchased
line. -/
structure OrderItem where
  order_id : Nat
  book_id : Nat
  book_title : String
  book_author : String
  quantity : Int
  price : Int
  subtotal : Int
deriving Repr, DecidableEq

/-- The relational store: one list of rows per table, plus the next value
of the shared auto-increment id sequence. -/
structure Store where
  books : List Book
  purchases : List Purchase
  carts : List Cart
  cart_items : List CartItem
  orders : List Order
  order_items : List OrderItem
  next_id : Nat
deriving Repr, DecidableEq

/-- `select(Book).where(Book.id == book_id)` followed by `.first()`. -/
def find_book (s : Store) (book_id : Nat) : Option Book :=
  s.books.find? (fun b => decide (b.id = book_id))

/-! ## DRM / purchase data access (`app/dao/book.py`) -/

/-- `check_user_owns_book`: the core DRM check — true exactly when a
`purchases` row matches both the subject and the book. -/
def check_user_owns_book (auth0_user_id : String) (book_id : Nat) (s : Store) : Bool :=
  (s.purchases.find? (fun p => decide (p.auth0_user_id = auth0_user_id ∧ p.book_id = book_id))).isSome

/-- `get_book_by_id`: look a book up, raising 404 when absent. -/
def get_book_by_id (book_id : Nat) (s : Store) : Except HttpError Book :=
  match find_book s book_id with
  | none => .error ⟨404, "Book not found."⟩
  | some book => .ok book

/-- `get_purchase_record`: the purchase row for a (subject, book) pair, if
any. -/
def get_purchase_record (auth0_user_id : String) (book_id : Nat) (s : Store) : Option Purchase :=
  s.purchases.find? (fun p => decide (p.auth0_user_id = auth0_user_id ∧ p.book_id = book_id))

/-- `create_purchase` from `app/dao/book.py`.  The source reads the store
twice: `get_purchase_record` and `get_book_by_id` run first (the
pre-check), and the `INSERT` commits afterwards in a fresh session.  The
embedding therefore takes two snapshots: `precheckDb` is the store seen by
the pre-check and `insertDb` the store against which the insert commits;
in a sequential run the two coincide, while for the loser of a concurrent
race `insertDb` already holds the competing row.  The
`UniqueConstraint` of the table over the pair of columns makes the
commit raise an integrity error exactly when `insertDb` already has a row
for the pair, and the `except Exception` handler of the source maps any
such storage failure to a generic HTTP 500. -/
def create_purchase (auth0_user_id : String) (book_id : Nat) (precheckDb insertDb : Store) :
    Except HttpError (Store × Purchase) :=
  match get_purchase_record auth0_user_id book_id precheckDb with
  | some _ => .error ⟨400, "User already owns this book."⟩
  | none =>
    match get_book_by_id book_id precheckDb with
    | .error e => .error e
    | .ok _ =>
      if (get_purchase_record auth0_user_id book_id insertDb).isSome then
        .error ⟨500, "Failed to create purchase."⟩
      else
        let p : Purchase := ⟨insertDb.next_id, auth0_user_id, book_id⟩
        .ok ({ insertDb with purchases := insertDb.purchases ++ [p],
                             next_id := insertDb.next_id + 1 }, p)

/-- `get_book_filepath`: 404 via `get_book_by_id` when the book is absent,
500 when its `filepath` column is empty. -/
def get_book_filepath (book_id : Nat) (s : Store) : Except HttpError String :=
  match get_book_by_id book_id s with
  | .error e => .error e
  | .ok book =>
    if book.filepath = "" then .error ⟨500, "Book file configuration error."⟩
    else .ok book.filepath

/-- Result of a successful DRM authorization
(`authorize_book_access`). -/
structure BookAuthorization where
  filepath : String
  book_id : Nat
  auth0_user_id : String
deriving Repr, DecidableEq

/-! ## DRM controllers (`app/controllers/book.py`) -/

/-- `authorize_book_access`: the ownership check runs first and a missing
entitlement is rejected with 403 before the book row is ever looked up;
only afterwards is the file path resolved (404/500 from
`get_book_filepath`). -/
def authorize_book_access (auth0_user_id : String) (book_id : Nat) (s : Store) :
    Except HttpError BookAuthorization :=
  if !(check_user_owns_book auth0_user_id book_id s) then
    .error ⟨403, "Access Denied: Purchase required to access this book."⟩
  else
    match get_book_filepath book_id s with
    | .error e => .error e
    | .ok filepath => .ok ⟨filepath, book_id, auth0_user_id⟩

/-- `get_secure_book_path`: authorize, strip the stored reference to its
basename, join it to the base directory and require the file to exist on
the server (`fsFiles` models the set of existing paths,
`os.path.exists`). -/
def get_secure_book_path (auth0_user_id : String) (book_id : Nat) (base_path : String)
    (s : Store) (fsFiles : List String) : Except HttpError String :=
  match authorize_book_access auth0_user_id book_id s with
  | .error e => .error e
  | .ok auth =>
    let filename := posixBasename auth.filepath
    let full_path := osPathJoin base_path filename
    if !(fsFiles.contains full_path) then
      .error ⟨500, "Book file is missing from server."⟩
    else
      .ok full_path

/-! ## Cart service (`app/dao/cart.py`, `CartDAO`) -/

/-- The dictionary returned by `CartDAO.add_item`. -/
structure AddItemResult where
  id : Nat
  book_id : Nat
  quantity : Int
deriving Repr, DecidableEq

/-- One entry of the `items` list returned by `CartDAO.get_cart`; `price`
is the stored `price_at_addition` snapshot. -/
structure CartViewItem where
  id : Nat
  book_id : Nat
  book_title : String
  book_author : String
  quantity : Int
  price : Int
  subtotal : Int
deriving Repr, DecidableEq

/-- The dictionary returned by `CartDAO.get_cart`. -/
structure CartView where
  items : List CartViewItem
  total_items : Int
  total_amount : Int
deriving Repr, DecidableEq

/-- In-place mutation of the first list element satisfying `p`, as done by
SQLAlchemy when the ORM object returned by `.first()` is modified and the
session committed. -/
def updateFirstCartItem (l : List CartItem) (p : CartItem → Bool) (f : CartItem → CartItem) :
    List CartItem :=
  match l with
  | [] => []
  | ci :: rest => if p ci then f ci :: rest else ci :: updateFirstCartItem rest p f

namespace CartDAO

/-- `CartDAO.get_or_create_cart`: return the id of the cart of the subject,
creating the row lazily on first access. -/
def get_or_create_cart (user_id : String) (s : Store) : Store × Nat :=
  match s.carts.find? (fun c => decide (c.user_id = user_id)) with
  | some cart => (s, cart.id)
  | none =>
    let cid := s.next_id
    ({ s with carts := s.carts ++ [⟨cid, user_id⟩], next_id := s.next_id + 1 }, cid)

/-- `CartDAO.add_item`: validate the book, get or create the cart, then
either increment the existing line for (cart, book) — rejecting totals
above 10 — or insert a new line with the current price as snapshot.  A
`ValueError` leaves the transaction rolled back, so no new state is
produced on the error paths. -/
def add_item (user_id : String) (book_id : Nat) (quantity : Int) (s : Store) :
    Except String (Store × AddItemResult) :=
  match find_book s book_id with
  | none => .error s!"Book {book_id} not found"
  | some book =>
    if !book.is_available then
      .error (let t := book.title; s!"Book {t} is not available")
    else
      let step1 := get_or_create_cart user_id s
      let s1 := step1.1
      let cart_id := step1.2
      match s1.cart_items.find? (fun ci => decide (ci.cart_id = cart_id ∧ ci.book_id = book_id)) with
      | some existing_item =>
        if existing_item.quantity + quantity > 10 then
          .error "Maximum 10 of same item allowed in cart"
        else
          let s2 := { s1 with cart_items :=
            (updateFirstCartItem s1.cart_items
              (fun ci => decide (ci.cart_id = cart_id ∧ ci.book_id = book_id))
              (fun ci => { ci with quantity := ci.quantity + quantity })) }
          .ok (s2, ⟨existing_item.id, book_id, quantity⟩)
      | none =>
        let item_id := s1.next_id
        let s2 := { s1 with
          cart_items := s1.cart_items ++ [⟨item_id, cart_id, book_id, quantity, book.price⟩],
          next_id := s1.next_id + 1 }
        .ok (s2, ⟨item_id, book_id, quantity⟩)

end CartDAO

/-- The inner join `select(CartItem, Book).join(Book).where(CartItem.cart_id == cart.id)`:
the lines of the cart paired with their book rows; lines whose book is missing
drop out of the join. -/
def cartRows (s : Store) (cart_id : Nat) : List (CartItem × Book) :=
  (s.cart_items.filter (fun ci => decide (ci.cart_id = cart_id))).filterMap
    (fun ci => (find_book s ci.book_id).map (fun b => (ci, b)))

/-- One iteration of the accumulation loop of `CartDAO.get_cart`: append
the item dictionary, add the subtotal to the running amount and the
quantity to the running item count. -/
def cartFoldStep (acc : List CartViewItem × Int × Int) (r : CartItem × Book) :
    List CartViewItem × Int × Int :=
  let subtotal := r.1.price_at_addition * r.1.quantity
  (acc.1 ++ [⟨r.1.id, r.2.id, r.2.title, r.2.author, r.1.quantity, r.1.price_at_addition, subtotal⟩],
   acc.2.1 + subtotal, acc.2.2 + r.1.quantity)

namespace CartDAO

/-- `CartDAO.get_cart`: an absent cart reads as empty; otherwise the
joined rows are folded into the view, totalling `price_at_addition *
quantity` per line. -/
def get_cart (user_id : String) (s : Store) : CartView :=
  match s.carts.find? (fun c => decide (c.user_id = user_id)) with
  | none => ⟨[], 0, 0⟩
  | some cart =>
    let folded := (cartRows s cart.id).foldl cartFoldStep ([], 0, 0)
    ⟨folded.1, folded.2.2, folded.2.1⟩

/-- `CartDAO.clear_cart`: delete every line of the cart of the subject; a no-op
when no cart exists. -/
def clear_cart (user_id : String) (s : Store) : Store :=
  match s.carts.find? (fun c => decide (c.user_id = user_id)) with
  | none => s
  | some cart =>
    { s with cart_items := s.cart_items.filter (fun ci => decide (ci.cart_id ≠ cart.id)) }

end CartDAO

/-! ## Checkout / order service (`app/dao/orders.py`, `OrderDAO`) -/

/-- One entry of `order_items_data` accumulated by
`OrderDAO.create_order`. -/
structure OrderItemData where
  book_id : Nat
  book_title : String
  book_author : String
  quantity : Int
  price : Int
  subtotal : Int
deriving Repr, DecidableEq

/-- The dictionary returned by `OrderDAO.create_order`. -/
structure OrderResult where
  id : Nat
  order_number : String
  total_amount : Int
  status : String
  payment_status : String
deriving Repr, DecidableEq

/-- One entry of the `items` list returned by
`OrderDAO.get_order_by_number`. -/
structure OrderLineView where
  book_id : Nat
  book_title : String
  book_author : String
  quantity : Int
  price : Int
  subtotal : Int
deriving Repr, DecidableEq

/-- The dictionary returned by `OrderDAO.get_order_by_number`
(`created_at` carries no verified content and is omitted). -/
structure OrderDetail where
  id : Nat
  order_number : String
  total_amount : Int
  status : String
  payment_status : String
  payment_method : String
  shipping_address : String
  items : List OrderLineView
deriving Repr, DecidableEq

/-- The status/payment-status mutation performed by
`OrderDAO.update_payment_status` on the order it found. -/
def applyPaymentStatus (payment_status : String) (o : Order) : Order :=
  { o with payment_status := payment_status,
           status := if payment_status = "completed" then "completed"
                     else if payment_status = "failed" then "failed"
                     else o.status }

/-- In-place mutation of the first order with the given id, as done by
SQLAlchemy when the object returned by `.first()` is modified. -/
def updateFirstOrder (l : List Order) (order_id : Nat) (f : Order → Order) : List Order :=
  match l with
  | [] => []
  | o :: rest => if o.id = order_id then f o :: rest else o :: updateFirstOrder rest order_id f

namespace OrderDAO

/-- The per-line loop of `OrderDAO.create_order`: re-read each book by id
from the current catalog, reject missing or unavailable books, and price
the line at `current price × quantity` — the cart `price` snapshot is
never consulted. -/
def order_items_loop (s : Store) : List CartViewItem → Except String (Int × List OrderItemData)
  | [] => .ok (0, [])
  | it :: rest =>
    match find_book s it.book_id with
    | none => .error (let bid := it.book_id; s!"Book {bid} not found")
    | some book =>
      if !book.is_available then
        .error (let t := book.title; s!"Book {t} is not available")
      else
        match order_items_loop s rest with
        | .error e => .error e
        | .ok (tot, ds) =>
          let subtotal := book.price * it.quantity
          .ok (subtotal + tot, ⟨book.id, book.title, book.author, it.quantity, book.price, subtotal⟩ :: ds)

/-- `OrderDAO.create_order`: recompute the total from current catalog
prices, then persist the pending order and its line snapshots in one
transaction. -/
def create_order (user_id order_number : String) (cart_items : List CartViewItem)
    (shipping_address payment_method : String) (s : Store) :
    Except String (Store × OrderResult) :=
  if cart_items.isEmpty then .error "Cannot create order with empty cart"
  else
    match order_items_loop s cart_items with
    | .error e => .error e
    | .ok (total_amount, ds) =>
      let oid := s.next_id
      let order : Order :=
        ⟨oid, user_id, order_number, total_amount, "pending", payment_method, "pending",
         shipping_address⟩
      let s1 := { s with
        orders := s.orders ++ [order],
        order_items := s.order_items ++
          ds.map (fun d => ⟨oid, d.book_id, d.book_title, d.book_author, d.quantity, d.price,
                            d.subtotal⟩),
        next_id := s.next_id + 1 }
      .ok (s1, ⟨oid, order_number, total_amount, "pending", "pending"⟩)

/-- `OrderDAO.update_payment_status`: validate the status literal, require
the order to exist, then set `payment_status` and derive `status` from
it. -/
def update_payment_status (order_id : Nat) (payment_status : String) (s : Store) :
    Except String Store :=
  if !(["pending", "completed", "failed"].contains payment_status) then
    .error s!"Invalid payment status: {payment_status}"
  else
    match s.orders.find? (fun o => decide (o.id = order_id)) with
    | none => .error s!"Order {order_id} not found"
    | some _ =>
      .ok { s with orders := updateFirstOrder s.orders order_id (applyPaymentStatus payment_status) }

/-- `OrderDAO.get_order_by_number`: the lookup predicate includes the
subject, so the result is `none` both for an absent order number and for
an order owned by another subject. -/
def get_order_by_number (order_number user_id : String) (s : Store) : Option OrderDetail :=
  match s.orders.find? (fun o => decide (o.order_number = order_number ∧ o.user_id = user_id)) with
  | none => none
  | some order =>
    let items := (s.order_items.filter (fun oi => decide (oi.order_id = order.id))).map
      (fun oi => (⟨oi.book_id, oi.book_title, oi.book_author, oi.quantity, oi.price,
                   oi.subtotal⟩ : OrderLineView))
    some ⟨order.id, order.order_number, order.total_amount, order.status, order.payment_status,
          order.payment_method, order.shipping_address, items⟩

end OrderDAO

/-! ## Checkout routes (`app/routes/checkout.py`) -/

/-- The validated request body of `POST /checkout`. -/
structure CheckoutRequest where
  payment_method : String
  shipping_address : String
  card_number : Option String
deriving Repr, DecidableEq

/-- The response body of `POST /checkout`. -/
structure OrderResponse where
  order_id : Nat
  order_number : String
  total_amount : Int
  status : String
  payment_status : String
deriving Repr, DecidableEq

/-- `process_dummy_payment`: the stub payment collaborator — declined
exactly when a card number is supplied and ends in `0000`. -/
def process_dummy_payment (order_id : Nat) (amount : Int) (payment_method : String)
    (card_number : Option String) : String :=
  match card_number with
  | some cn => if pyEndsWith cn "0000" then "failed" else "completed"
  | none => "completed"

/-- Whether the stub payment collaborator declines the given card. -/
def cardDeclines : Option String → Bool
  | some cn => pyEndsWith cn "0000"
  | none => false

/-- The `create_order` route handler (`POST /checkout`), for an
authenticated subject: reject an empty cart with 400, create the pending
order, run the payment stub, persist the returned payment status and clear
the cart exactly when the payment completed.  A `ValueError` from a DAO is
mapped to HTTP 400; the externally supplied `order_number` stands for the
generated `ORD-...` token. -/
def routeCreateOrder (user_id : String) (payload : CheckoutRequest) (order_number : String)
    (s : Store) : Except HttpError (Store × OrderResponse) :=
  let cart := CartDAO.get_cart user_id s
  if cart.items.isEmpty then .error ⟨400, "Cart is empty"⟩
  else
    match OrderDAO.create_order user_id order_number cart.items payload.shipping_address
        payload.payment_method s with
    | .error e => .error ⟨400, e⟩
    | .ok (s1, order) =>
      let payment_status :=
        process_dummy_payment order.id order.total_amount payload.payment_method
          payload.card_number
      match OrderDAO.update_payment_status order.id payment_status s1 with
      | .error e => .error ⟨400, e⟩
      | .ok s2 =>
        let s3 := if payment_status = "completed" then CartDAO.clear_cart user_id s2 else s2
        .ok (s3, ⟨order.id, order.order_number, order.total_amount, order.status, payment_status⟩)

/-- The `get_order` route handler (`GET /checkout/orders/{order_number}`),
for an authenticated subject: 404 whenever the subject-scoped lookup finds
nothing. -/
def routeGetOrder (user_id : String) (order_number : String) (s : Store) :
    Except HttpError OrderDetail :=
  match OrderDAO.get_order_by_number order_number user_id s with
  | none => .error ⟨404, "Order not found"⟩
  | some d => .ok d

/-- At most one purchase row per (subject, book) pair — the invariant of
the `UniqueConstraint` on the `purchases` table. -/
def purchases_unique (l : List Purchase) : Prop :=
  ∀ u b, (l.filter (fun p => decide (p.auth0_user_id = u ∧ p.book_id = b))).length ≤ 1

/-! ## Concrete fixtures used by witnesses and counterexamples -/

/-- One available catalog book priced 12 whose stored file is `1.pdf`. -/
def bookOne : Book := ⟨1, "Book One", "Author One", "", 12, true, "1.pdf"⟩

/-- A store with no rows at all. -/
def emptyStore : Store := ⟨[], [], [], [], [], [], 1⟩

/-- Subject `subject-a` has one cart line for `bookOne`, snapshotted at
the old price 10 although the current catalog price is 12. -/
def storeC1 : Store := ⟨[bookOne], [], [⟨1, "subject-a"⟩], [⟨2, 1, 1, 1, 10⟩], [], [], 3⟩

/-- A checkout payload whose card number does not end in `0000`. -/
def payloadOk : CheckoutRequest :=
  ⟨"dummy", "123 Main Street, City, State 12345", some "1234567890123456"⟩

/-- The store produced by checking `storeC1` out with `payloadOk`: order
and line persisted as completed, cart emptied, and no purchase row
written. -/
def storeC1After : Store :=
  ⟨[bookOne], [], [⟨1, "subject-a"⟩], [],
   [⟨3, "subject-a", "ORD-1", 12, "completed", "dummy", "completed",
     "123 Main Street, City, State 12345"⟩],
   [⟨3, 1, "Book One", "Author One", 1, 12, 12⟩], 4⟩

/-- The response body of that checkout. -/
def respC1 : OrderResponse := ⟨3, "ORD-1", 12, "pending", "completed"⟩

/-- Subject `subject-a` already owns `bookOne`. -/
def storeOwned : Store := ⟨[bookOne], [⟨5, "subject-a", 1⟩], [], [], [], [], 6⟩

/-- `bookOne` exists but `subject-a` owns nothing yet. -/
def storeUnowned : Store := ⟨[bookOne], [], [], [], [], [], 6⟩

/-- `storeUnowned` after a successful direct purchase of `bookOne`. -/
def storeAfterPurchase : Store := ⟨[bookOne], [⟨6, "subject-a", 1⟩], [], [], [], [], 7⟩

/-- Subject `subject-a` already has 8 copies of `bookOne` in the cart. -/
def storeC7 : Store := ⟨[bookOne], [], [⟨1, "subject-a"⟩], [⟨2, 1, 1, 8, 12⟩], [], [], 3⟩

/-- An order of `subject-a` retrievable as `ORD-9`, used for the order
isolation witness. -/
def storeC9 : Store :=
  ⟨[], [], [], [],
   [⟨7, "subject-a", "ORD-9", 12, "completed", "dummy", "completed", "addr addr addr"⟩],
   [], 8⟩

/-- A store holding a purchase row for a book id with no book row — the
state exercised by the 404 branch of the DRM controller. -/
def storeGhost : Store := ⟨[], [⟨5, "subject-a", 1⟩], [], [], [], [], 6⟩

/-- The store from which adding 8 copies of `bookOne` produces
`storeC7`. -/
def storeC7pre : Store := ⟨[bookOne], [], [], [], [], [], 1⟩

/-- The cart view lines of `storeC1`: one line, quantity 1, snapshot
price 10. -/
def itemsC8 : List CartViewItem := [⟨2, 1, "Book One", "Author One", 1, 10, 10⟩]

/-- `storeC1` after `OrderDAO.create_order` alone (order still
pending). -/
def storeC8After : Store :=
  ⟨[bookOne], [], [⟨1, "subject-a"⟩], [⟨2, 1, 1, 1, 10⟩],
   [⟨3, "subject-a", "ORD-1", 12, "pending", "dummy", "pending",
     "123 Main Street, City, State 12345"⟩],
   [⟨3, 1, "Book One", "Author One", 1, 12, 12⟩], 4⟩

/-- The pending-order dictionary returned for `storeC1`. -/
def resC8 : OrderResult := ⟨3, "ORD-1", 12, "pending", "pending"⟩

/-! ## General lemmas about the embedded operations -/

/-- Updating the first matching order keeps the updated row in the
list. -/
theorem updateFirstOrder_mem (l : List Order) (oid : Nat) (f : Order → Order) (o₀ : Order)
    (h : l.find? (fun o => decide (o.id = oid)) = some o₀) :
    f o₀ ∈ updateFirstOrder l oid f := by
  induction l with
  | nil => simp [List.find?] at h
  | cons a t ih =>
    rw [List.find?_cons] at h
    by_cases ha : a.id = oid
    · simp [ha] at h
      subst h
      simp [updateFirstOrder, ha]
    · simp [ha] at h
      simp [updateFirstOrder, ha]
      exact Or.inr (ih h)

/-- The order found by the id lookup has that id. -/
theorem updateFirstOrder_id (l : List Order) (oid : Nat) (o₀ : Order)
    (h : l.find? (fun o => decide (o.id = oid)) = some o₀) : o₀.id = oid := by
  have := List.find?_some h
  simpa using this

/-- Elimination for a successful `update_payment_status`: only the order
table changes, by mutating the first row with the requested id. -/
theorem update_payment_status_ok (oid : Nat) (ps : String) (s s' : Store)
    (h : OrderDAO.update_payment_status oid ps s = .ok s') :
    s'.purchases = s.purchases ∧ s'.carts = s.carts ∧ s'.cart_items = s.cart_items ∧
      s'.books = s.books ∧
      ∃ o₀, s.orders.find? (fun o => decide (o.id = oid)) = some o₀ ∧
        s'.orders = updateFirstOrder s.orders oid (applyPaymentStatus ps) := by
  unfold OrderDAO.update_payment_status at h
  split at h
  · exact absurd h (by simp)
  · cases hf : s.orders.find? (fun o => decide (o.id = oid)) with
    | none => rw [hf] at h; exact absurd h (by simp)
    | some o₀ =>
      rw [hf] at h
      simp only [Except.ok.injEq] at h
      subst h
      exact ⟨rfl, rfl, rfl, rfl, o₀, rfl, rfl⟩

/-- Elimination for a successful `create_order`: frame conditions, the
pending statuses of the returned dictionary, and the link between the
returned total and the pricing loop. -/
theorem create_order_ok (u n : String) (items : List CartViewItem) (addr pm : String)
    (s s1 : Store) (res : OrderResult)
    (h : OrderDAO.create_order u n items addr pm s = .ok (s1, res)) :
    s1.purchases = s.purchases ∧ s1.carts = s.carts ∧ s1.cart_items = s.cart_items ∧
      s1.books = s.books ∧ res.status = "pending" ∧ res.payment_status = "pending" ∧
      ∃ ds, OrderDAO.order_items_loop s items = .ok (res.total_amount, ds) := by
  unfold OrderDAO.create_order at h
  split at h
  · exact absurd h (by simp)
  · cases hl : OrderDAO.order_items_loop s items with
    | error e => rw [hl] at h; exact absurd h (by simp)
    | ok pair =>
      obtain ⟨tot, ds⟩ := pair
      rw [hl] at h
      obtain ⟨hs, hr⟩ := (Prod.mk.injEq _ _ _ _ ▸ Except.ok.inj h)
      refine ⟨?_, ?_, ?_, ?_, ?_, ?_, ds, ?_⟩
      · rw [← hs]
      · rw [← hs]
      · rw [← hs]
      · rw [← hs]
      · rw [← hr]
      · rw [← hr]
      · rw [← hr]

/-- The total produced by the pricing loop is the sum over the lines of
the current catalog price times the quantity. -/
theorem order_items_loop_total (s : Store) (items : List CartViewItem) (tot : Int)
    (ds : List OrderItemData)
    (h : OrderDAO.order_items_loop s items = .ok (tot, ds)) :
    tot = (items.map (fun it =>
      (((find_book s it.book_id).map Book.price).getD 0) * it.quantity)).sum := by
  induction items generalizing tot ds with
  | nil =>
    unfold OrderDAO.order_items_loop at h
    obtain ⟨ht, _⟩ := (Prod.mk.injEq _ _ _ _ ▸ Except.ok.inj h)
    simp [← ht]
  | cons it rest ih =>
    cases hfb : find_book s it.book_id with
    | none =>
      unfold OrderDAO.order_items_loop at h
      rw [hfb] at h
      exact absurd h (by simp)
    | some book =>
      unfold OrderDAO.order_items_loop at h
      rw [hfb] at h
      dsimp only at h
      by_cases hav : book.is_available
      · rw [if_neg (by simp [hav])] at h
        cases hl : OrderDAO.order_items_loop s rest with
        | error e => rw [hl] at h; exact absurd h (by simp)
        | ok pair =>
          obtain ⟨tot2, ds2⟩ := pair
          rw [hl] at h
          obtain ⟨ht, _⟩ := (Prod.mk.injEq _ _ _ _ ▸ Except.ok.inj h)
          rw [List.map_cons, List.sum_cons, ← ih tot2 ds2 hl, ← ht, hfb]
          rfl
      · rw [if_pos (by simp [hav])] at h
        exact absurd h (by simp)

/-- `clear_cart` touches only the cart line table. -/
theorem clear_cart_frame (u : String) (s : Store) :
    (CartDAO.clear_cart u s).purchases = s.purchases ∧
      (CartDAO.clear_cart u s).carts = s.carts ∧
      (CartDAO.clear_cart u s).orders = s.orders ∧
      (CartDAO.clear_cart u s).books = s.books := by
  unfold CartDAO.clear_cart
  cases hf : s.carts.find? (fun c => decide (c.user_id = u)) <;> exact ⟨rfl, rfl, rfl, rfl⟩

/-- After `clear_cart`, the cart of the subject reads back empty. -/
theorem get_cart_after_clear (u : String) (s : Store) :
    (CartDAO.get_cart u (CartDAO.clear_cart u s)).items = [] := by
  unfold CartDAO.clear_cart
  cases hf : s.carts.find? (fun c => decide (c.user_id = u)) with
  | none => unfold CartDAO.get_cart; rw [hf]
  | some cart =>
    have hrows : cartRows
        { s with cart_items := (s.cart_items.filter (fun ci => decide (ci.cart_id ≠ cart.id))) }
        cart.id = [] := by
      unfold cartRows
      have hnil : (s.cart_items.filter (fun ci => decide (ci.cart_id ≠ cart.id))).filter
          (fun ci => decide (ci.cart_id = cart.id)) = [] := by
        rw [List.filter_eq_nil_iff]
        intro a ha
        have hne := (List.mem_filter.mp ha).2
        simp only [decide_eq_true_eq] at hne ⊢
        simp [hne]
      simp only [hnil]
      rfl
    unfold CartDAO.get_cart
    dsimp only
    rw [hf]
    dsimp only
    rw [hrows]
    rfl

/-- Elimination for a successful checkout route call: the intermediate DAO
results and the shape of the final state and response. -/
theorem routeCreateOrder_ok_elim (u : String) (payload : CheckoutRequest) (n : String)
    (s s' : Store) (r : OrderResponse)
    (h : routeCreateOrder u payload n s = .ok (s', r)) :
    ∃ s1 order s2,
      OrderDAO.create_order u n (CartDAO.get_cart u s).items payload.shipping_address
          payload.payment_method s = .ok (s1, order) ∧
      OrderDAO.update_payment_status order.id
          (process_dummy_payment order.id order.total_amount payload.payment_method
            payload.card_number) s1 = .ok s2 ∧
      s' = (if process_dummy_payment order.id order.total_amount payload.payment_method
              payload.card_number = "completed" then CartDAO.clear_cart u s2 else s2) ∧
      r = ⟨order.id, order.order_number, order.total_amount, order.status,
           process_dummy_payment order.id order.total_amount payload.payment_method
             payload.card_number⟩ := by
  unfold routeCreateOrder at h
  dsimp only at h
  split at h
  · exact absurd h (by simp)
  · cases hco : OrderDAO.create_order u n (CartDAO.get_cart u s).items payload.shipping_address
        payload.payment_method s with
    | error e => rw [hco] at h; exact absurd h (by simp)
    | ok pair =>
      obtain ⟨s1, order⟩ := pair
      rw [hco] at h
      dsimp only at h
      cases hup : OrderDAO.update_payment_status order.id
          (process_dummy_payment order.id order.total_amount payload.payment_method
            payload.card_number) s1 with
      | error e => rw [hup] at h; exact absurd h (by simp)
      | ok s2 =>
        rw [hup] at h
        dsimp only at h
        obtain ⟨hs, hr⟩ := (Prod.mk.injEq _ _ _ _ ▸ Except.ok.inj h)
        exact ⟨s1, order, s2, rfl, hup, hs.symm, hr.symm⟩

/-- The view items built by the cart fold. -/
def cartViewOf (r : CartItem × Book) : CartViewItem :=
  ⟨r.1.id, r.2.id, r.2.title, r.2.author, r.1.quantity, r.1.price_at_addition,
   r.1.price_at_addition * r.1.quantity⟩

/-- The items accumulated by the cart fold. -/
theorem cartFold_items (rows : List (CartItem × Book)) :
    ∀ acc : List CartViewItem × Int × Int,
      (rows.foldl cartFoldStep acc).1 = acc.1 ++ rows.map cartViewOf := by
  induction rows with
  | nil => intro acc; simp
  | cons r rest ih =>
    intro acc
    rw [List.foldl_cons, ih, List.map_cons]
    simp [cartFoldStep, cartViewOf]

/-- The amount accumulated by the cart fold is the sum of the per-line
snapshot subtotals. -/
theorem cartFold_amount (rows : List (CartItem × Book)) :
    ∀ acc : List CartViewItem × Int × Int,
      (rows.foldl cartFoldStep acc).2.1 =
        acc.2.1 + (rows.map (fun r => r.1.price_at_addition * r.1.quantity)).sum := by
  induction rows with
  | nil => intro acc; simp
  | cons r rest ih =>
    intro acc
    rw [List.foldl_cons, ih, List.map_cons, List.sum_cons]
    simp [cartFoldStep]
    ring

/-- In-place mutation never changes the number of cart lines. -/
theorem updateFirstCartItem_length (l : List CartItem) (p : CartItem → Bool)
    (f : CartItem → CartItem) : (updateFirstCartItem l p f).length = l.length := by
  induction l with
  | nil => rfl
  | cons a t ih =>
    unfold updateFirstCartItem
    split <;> simp [ih]

/-- The basename fold never leaves a slash in its accumulator. -/
theorem basename_fold_no_slash (l : List Char) :
    ∀ acc : List Char, '/' ∉ acc →
      '/' ∉ l.foldl (fun acc c => if c = '/' then [] else acc ++ [c]) acc := by
  induction l with
  | nil => intro acc h; simpa using h
  | cons c t ih =>
    intro acc h
    rw [List.foldl_cons]
    by_cases hc : c = '/'
    · rw [if_pos hc]; exact ih [] (by simp)
    · rw [if_neg hc]
      refine ih _ ?_
      intro hmem
      rcases List.mem_append.mp hmem with h1 | h2
      · exact h h1
      · exact hc (List.mem_singleton.mp h2).symm

/-- `os.path.basename` output contains no directory separator. -/
theorem posixBasename_no_slash (p : String) : '/' ∉ (posixBasename p).data := by
  unfold posixBasename
  exact basename_fold_no_slash p.data [] (by simp)

/-- A purchase row for the pair exists exactly when `get_purchase_record`
finds one. -/
theorem get_purchase_record_isSome_iff (u : String) (b : Nat) (s : Store) :
    (get_purchase_record u b s).isSome = true ↔
      ∃ p, p ∈ s.purchases ∧ p.auth0_user_id = u ∧ p.book_id = b := by
  unfold get_purchase_record
  rw [List.find?_isSome]
  constructor
  · rintro ⟨p, hp, hpred⟩
    exact ⟨p, hp, by simpa using hpred⟩
  · rintro ⟨p, hp, h1, h2⟩
    exact ⟨p, hp, by simp [h1, h2]⟩

/-- The DRM gate opens exactly when a purchase row exists for the
pair. -/
theorem check_user_owns_book_iff (u : String) (b : Nat) (s : Store) :
    check_user_owns_book u b s = true ↔
      ∃ p, p ∈ s.purchases ∧ p.auth0_user_id = u ∧ p.book_id = b := by
  unfold check_user_owns_book
  rw [List.find?_isSome]
  constructor
  · rintro ⟨p, hp, hpred⟩
    exact ⟨p, hp, by simpa using hpred⟩
  · rintro ⟨p, hp, h1, h2⟩
    exact ⟨p, hp, by simp [h1, h2]⟩

/-- Elimination for a successful `create_purchase`: the insert-side store
had no row for the pair, and exactly one new row is appended. -/
theorem create_purchase_ok_elim (u : String) (b : Nat) (s si s' : Store) (pr : Purchase)
    (h : create_purchase u b s si = .ok (s', pr)) :
    get_purchase_record u b si = none ∧
      s'.purchases = si.purchases ++ [⟨si.next_id, u, b⟩] ∧
      pr = ⟨si.next_id, u, b⟩ := by
  unfold create_purchase at h
  cases hpre : get_purchase_record u b s with
  | some p => rw [hpre] at h; exact absurd h (by simp)
  | none =>
    rw [hpre] at h
    dsimp only at h
    cases hbk : get_book_by_id b s with
    | error e => rw [hbk] at h; exact absurd h (by simp)
    | ok bk =>
      rw [hbk] at h
      dsimp only at h
      split at h
      · exact absurd h (by simp)
      · rename_i hins
        obtain ⟨hs, hr⟩ := (Prod.mk.injEq _ _ _ _ ▸ Except.ok.inj h)
        refine ⟨?_, ?_, hr.symm⟩
        · cases hrec : get_purchase_record u b si with
          | none => rfl
          | some p => rw [hrec] at hins; exact absurd rfl hins
        · rw [← hs]

/-- A purchase attempt for an already-owned pair stops at the pre-check
with the 400 error. -/
theorem create_purchase_dup (u : String) (b : Nat) (s si : Store)
    (hdup : ∃ p, p ∈ s.purchases ∧ p.auth0_user_id = u ∧ p.book_id = b) :
    create_purchase u b s si = .error ⟨400, "User already owns this book."⟩ := by
  have hsome : (get_purchase_record u b s).isSome = true :=
    (get_purchase_record_isSome_iff u b s).mpr hdup
  obtain ⟨p₀, hp₀⟩ := Option.isSome_iff_exists.mp hsome
  unfold create_purchase
  rw [hp₀]

/-- A purchase attempt whose pre-check passed but whose insert hits the
uniqueness constraint is surfaced as the generic 500 error. -/
theorem create_purchase_race (u : String) (b : Nat) (s si : Store)
    (hpre : get_purchase_record u b s = none)
    (hbk : (find_book s b).isSome = true)
    (hdup : ∃ p, p ∈ si.purchases ∧ p.auth0_user_id = u ∧ p.book_id = b) :
    create_purchase u b s si = .error ⟨500, "Failed to create purchase."⟩ := by
  obtain ⟨bk, hbk2⟩ := Option.isSome_iff_exists.mp hbk
  have hbook : get_book_by_id b s = .ok bk := by unfold get_book_by_id; rw [hbk2]
  have hins : (get_purchase_record u b si).isSome = true :=
    (get_purchase_record_isSome_iff u b si).mpr hdup
  unfold create_purchase
  rw [hpre]
  dsimp only
  rw [hbook]
  dsimp only
  rw [if_pos hins]

/-- Appending a row for a pair that has no row yet preserves per-pair
uniqueness. -/
theorem purchases_unique_insert (l : List Purchase) (u : String) (b : Nat) (pid : Nat)
    (hnone : ∀ p ∈ l, ¬(p.auth0_user_id = u ∧ p.book_id = b))
    (hu : purchases_unique l) :
    purchases_unique (l ++ [⟨pid, u, b⟩]) := by
  intro u' b'
  rw [List.filter_append]
  by_cases hmatch : u' = u ∧ b' = b
  · rcases hmatch with ⟨rfl, rfl⟩
    have hl : l.filter (fun p => decide (p.auth0_user_id = u' ∧ p.book_id = b')) = [] := by
      rw [List.filter_eq_nil_iff]
      intro p hp
      simpa using hnone p hp
    rw [hl]
    simp
  · have hnot : ¬((u : String) = u' ∧ (b : Nat) = b') := by
      rintro ⟨x, y⟩
      exact hmatch ⟨x.symm, y.symm⟩
    have hs : ([⟨pid, u, b⟩] : List Purchase).filter
        (fun p => decide (p.auth0_user_id = u' ∧ p.book_id = b')) = [] := by
      simp [List.filter, hnot]
    rw [hs]
    simpa using hu u' b'

/-- A missing entitlement is rejected with 403 before anything else is
examined. -/
theorem authorize_denied (u : String) (b : Nat) (s : Store)
    (h : check_user_owns_book u b s = false) :
    authorize_book_access u b s =
      .error ⟨403, "Access Denied: Purchase required to access this book."⟩ := by
  unfold authorize_book_access
  rw [h]
  rfl

/-- With an entitlement present but the book row absent, the file-path
lookup raises 404. -/
theorem authorize_owns_book_missing (u : String) (b : Nat) (s : Store)
    (howns : check_user_owns_book u b s = true) (hfb : find_book s b = none) :
    authorize_book_access u b s = .error ⟨404, "Book not found."⟩ := by
  unfold authorize_book_access
  rw [howns]
  have hbk : get_book_filepath b s = .error ⟨404, "Book not found."⟩ := by
    unfold get_book_filepath get_book_by_id
    rw [hfb]
  rw [hbk]
  rfl

/-- With an entitlement and a non-empty stored reference, authorization
succeeds and carries the stored reference. -/
theorem authorize_grants (u : String) (b : Nat) (s : Store) (bk : Book)
    (howns : check_user_owns_book u b s = true) (hfb : find_book s b = some bk)
    (hfp : bk.filepath ≠ "") :
    authorize_book_access u b s = .ok ⟨bk.filepath, b, u⟩ := by
  unfold authorize_book_access
  rw [howns]
  have hbk : get_book_filepath b s = .ok bk.filepath := by
    unfold get_book_filepath get_book_by_id
    rw [hfb]
    dsimp only
    rw [if_neg hfp]
  rw [hbk]
  rfl

/-- When no order matches both the number and the subject, the route
answers with the fixed 404 error. -/
theorem routeGetOrder_not_found (u n : String) (s : Store)
    (h : ∀ o, o ∈ s.orders → o.order_number = n → o.user_id ≠ u) :
    routeGetOrder u n s = .error ⟨404, "Order not found"⟩ := by
  have hfind : s.orders.find?
      (fun o => decide (o.order_number = n ∧ o.user_id = u)) = none := by
    rw [List.find?_eq_none]
    intro o ho
    simp only [decide_eq_true_eq, not_and]
    intro hn
    exact h o ho hn
  unfold routeGetOrder OrderDAO.get_order_by_number
  rw [hfind]

/-- Every error the order lookup route can produce carries status 404. -/
theorem routeGetOrder_error_status (u n : String) (s : Store) (e : HttpError)
    (h : routeGetOrder u n s = .error e) : e.status = 404 := by
  unfold routeGetOrder at h
  cases hf : OrderDAO.get_order_by_number n u s with
  | none =>
    rw [hf] at h
    rw [← Except.error.inj h]
  | some d => rw [hf] at h; exact absurd h (by simp)

/-- The cart view total is the sum over the returned lines of the price
snapshot times the quantity. -/
theorem get_cart_total (u : String) (s : Store) :
    (CartDAO.get_cart u s).total_amount =
      ((CartDAO.get_cart u s).items.map (fun it => it.price * it.quantity)).sum := by
  unfold CartDAO.get_cart
  cases hf : s.carts.find? (fun c => decide (c.user_id = u)) with
  | none => simp
  | some cart =>
    dsimp only
    rw [cartFold_amount, cartFold_items]
    simp only [List.nil_append, List.map_map, zero_add]
    rfl

/-- Behaviour of `add_item` on an existing line: the cap error for totals
above 10, and the in-place increment otherwise. -/
theorem add_item_existing (s : Store) (u : String) (b : Nat) (q : Int) (book : Book)
    (c : Cart) (it : CartItem)
    (hfb : find_book s b = some book)
    (hav : book.is_available = true)
    (hcart : s.carts.find? (fun c2 => decide (c2.user_id = u)) = some c)
    (hitem : s.cart_items.find? (fun ci => decide (ci.cart_id = c.id ∧ ci.book_id = b)) = some it) :
    (it.quantity + q > 10 →
      CartDAO.add_item u b q s = .error "Maximum 10 of same item allowed in cart") ∧
    (¬(it.quantity + q > 10) →
      CartDAO.add_item u b q s = .ok
        ({ s with cart_items := (updateFirstCartItem s.cart_items
            (fun ci => decide (ci.cart_id = c.id ∧ ci.book_id = b))
            (fun ci => { ci with quantity := ci.quantity + q })) },
         ⟨it.id, b, q⟩)) := by
  unfold CartDAO.add_item CartDAO.get_or_create_cart
  rw [hfb]
  try dsimp only
  rw [hav]
  try dsimp only
  rw [hcart]
  try dsimp only
  rw [hitem]
  try dsimp only
  constructor
  · intro h10
    rw [if_pos h10]
    try rfl
  · intro h10
    rw [if_neg h10]
    try rfl

/-- The purchase table is untouched by a successful checkout route
call. -/
theorem routeCreateOrder_ok_purchases (u : String) (payload : CheckoutRequest) (n : String)
    (s s' : Store) (r : OrderResponse)
    (h : routeCreateOrder u payload n s = .ok (s', r)) : s'.purchases = s.purchases := by
  obtain ⟨s1, order, s2, hco, hup, hs', hr⟩ := routeCreateOrder_ok_elim u payload n s s' r h
  have h1 := (create_order_ok _ _ _ _ _ _ _ _ hco).1
  have h2 := (update_payment_status_ok _ _ _ _ hup).1
  rw [hs']
  by_cases hc : process_dummy_payment order.id order.total_amount payload.payment_method
      payload.card_number = "completed"
  · rw [if_pos hc, (clear_cart_frame u s2).1, h2, h1]
  · rw [if_neg hc, h2, h1]

/-- A card that does not end in `0000` makes the payment stub answer
`completed`. -/
theorem payment_completed_of_not_declining (payload : CheckoutRequest) (oid : Nat) (amt : Int)
    (pm : String) (hcard : cardDeclines payload.card_number = false) :
    process_dummy_payment oid amt pm payload.card_number = "completed" := by
  cases hcn : payload.card_number with
  | none => simp [process_dummy_payment]
  | some cn =>
    rw [hcn] at hcard
    have hend : pyEndsWith cn "0000" = false := hcard
    simp [process_dummy_payment, hend]

/-! ## Claim theorems -/

/-- C1 (counterexample): on a concrete non-empty cart with a completing
payment, the checkout route succeeds with `payment_status = completed`,
yet the resulting store holds no Entitlement (purchase) row at all —
contradicting the claim that one Entitlement is created per purchased
catalog item. -/
theorem checkout_creates_no_entitlement_cex :
    (routeCreateOrder "subject-a" payloadOk "ORD-1" storeC1).toOption.map
        (fun x => (x.1.purchases, x.2.payment_status)) = some ([], "completed") ∧
    ¬ ∃ p, p ∈ ([] : List Purchase) ∧ p.auth0_user_id = "subject-a" ∧ p.book_id = 1 := by
  constructor
  · rfl
  · rintro ⟨p, hp, _⟩
    simp at hp

/-- C1 (amended): for every subject and store, when the payment
collaborator completes (card not ending `0000`) and the checkout route
succeeds, the persisted order has `status = completed` and
`paymentStatus = completed`, the response reports the completed payment,
and the cart of the subject is cleared — but no Entitlement row is created:
the purchase table is exactly the one of the initial store. -/
theorem checkout_completed_effects (s : Store) (u : String) (payload : CheckoutRequest)
    (n : String) (s' : Store) (r : OrderResponse)
    (hcard : cardDeclines payload.card_number = false)
    (h : routeCreateOrder u payload n s = .ok (s', r)) :
    r.payment_status = "completed" ∧
      (∃ o, o ∈ s'.orders ∧ o.id = r.order_id ∧ o.status = "completed" ∧
        o.payment_status = "completed") ∧
      (CartDAO.get_cart u s').items = [] ∧
      s'.purchases = s.purchases := by
  obtain ⟨s1, order, s2, hco, hup, hs', hr⟩ := routeCreateOrder_ok_elim u payload n s s' r h
  have hpay := payment_completed_of_not_declining payload order.id order.total_amount
    payload.payment_method hcard
  rw [hpay] at hs' hr hup
  rw [if_pos rfl] at hs'
  refine ⟨by rw [hr], ?_, ?_, routeCreateOrder_ok_purchases u payload n s s' r h⟩
  · obtain ⟨_, _, _, _, o₀, hfind, horders⟩ := update_payment_status_ok _ _ _ _ hup
    refine ⟨applyPaymentStatus "completed" o₀, ?_, ?_, ?_, ?_⟩
    · rw [hs', (clear_cart_frame u s2).2.2.1, horders]
      exact updateFirstOrder_mem s1.orders order.id _ o₀ hfind
    · rw [hr]
      exact updateFirstOrder_id s1.orders order.id o₀ hfind
    · simp [applyPaymentStatus]
    · simp [applyPaymentStatus]
  · rw [hs']
    exact get_cart_after_clear u s2

/-- C1 (witness): the amended checkout theorem applied to the concrete
store `storeC1`. -/
theorem checkout_completed_effects_witness :
    cardDeclines payloadOk.card_number = false ∧
    routeCreateOrder "subject-a" payloadOk "ORD-1" storeC1 = .ok (storeC1After, respC1) ∧
    (respC1.payment_status = "completed" ∧
      (∃ o, o ∈ storeC1After.orders ∧ o.id = respC1.order_id ∧ o.status = "completed" ∧
        o.payment_status = "completed") ∧
      (CartDAO.get_cart "subject-a" storeC1After).items = [] ∧
      storeC1After.purchases = storeC1.purchases) :=
  ⟨by decide, by decide,
   checkout_completed_effects storeC1 "subject-a" payloadOk "ORD-1" storeC1After respC1
     (by decide) (by decide)⟩

/-- C2: a second purchase attempt for a pair that already has a row fails
with the pre-check error and produces no new state (the transaction rolls
back), and a successful `create_purchase` — the only operation writing
purchase rows — preserves the at-most-one-row-per-pair invariant of the
store it commits against. -/
theorem purchase_pair_unique (u : String) (b : Nat) (s si s' : Store) (pr : Purchase) :
    ((∃ p, p ∈ s.purchases ∧ p.auth0_user_id = u ∧ p.book_id = b) →
      create_purchase u b s si = .error ⟨400, "User already owns this book."⟩) ∧
    (create_purchase u b s si = .ok (s', pr) → purchases_unique si.purchases →
      purchases_unique s'.purchases) := by
  constructor
  · exact create_purchase_dup u b s si
  · intro h hu
    obtain ⟨hnone, hpur, _⟩ := create_purchase_ok_elim u b s si s' pr h
    rw [hpur]
    apply purchases_unique_insert
    · intro p hp hmatch
      have hsome : (get_purchase_record u b si).isSome = true :=
        (get_purchase_record_isSome_iff u b si).mpr ⟨p, hp, hmatch.1, hmatch.2⟩
      rw [hnone] at hsome
      simp at hsome
    · exact hu

/-- C2 (witness): the uniqueness theorem applied to concrete stores: the
duplicate attempt on `storeOwned` fails with 400, and the successful
purchase on `storeUnowned` keeps the table unique. -/
theorem purchase_pair_unique_witness :
    ((∃ p, p ∈ storeOwned.purchases ∧ p.auth0_user_id = "subject-a" ∧ p.book_id = 1) ∧
      create_purchase "subject-a" 1 storeOwned storeOwned =
        .error ⟨400, "User already owns this book."⟩) ∧
    (create_purchase "subject-a" 1 storeUnowned storeUnowned =
        .ok (storeAfterPurchase, ⟨6, "subject-a", 1⟩) ∧
      purchases_unique storeAfterPurchase.purchases) :=
  ⟨⟨⟨⟨5, "subject-a", 1⟩, by decide, rfl, rfl⟩,
    (purchase_pair_unique "subject-a" 1 storeOwned storeOwned storeOwned ⟨5, "subject-a", 1⟩).1
      ⟨⟨5, "subject-a", 1⟩, by decide, rfl, rfl⟩⟩,
   ⟨by decide,
    (purchase_pair_unique "subject-a" 1 storeUnowned storeUnowned storeAfterPurchase
        ⟨6, "subject-a", 1⟩).2 (by decide)
      (fun u' b' => by simp [storeUnowned])⟩⟩

/-- C3 (counterexample): on the backend that owns the uniqueness
constraint, a duplicate caught by the pre-check is rejected with 400, and
the loser of a concurrent race — whose insert violates the constraint —
is surfaced as the generic 500, neither of which is the claimed 409
Conflict. -/
theorem purchase_conflict_cex :
    create_purchase "subject-a" 1 storeOwned storeOwned =
      .error ⟨400, "User already owns this book."⟩ ∧
    create_purchase "subject-a" 1 storeUnowned storeOwned =
      .error ⟨500, "Failed to create purchase."⟩ ∧
    (400 : Nat) ≠ 409 ∧ (500 : Nat) ≠ 409 := by
  exact ⟨by decide, by decide, by decide, by decide⟩

/-- C3 (amended): a purchase attempt for a pair that already has a row is
rejected by the application-level pre-check with HTTP 400 `User already
owns this book.`; when the pre-check passes but the insert itself hits
the uniqueness constraint of the store (the loser of two concurrent
completions), the storage error is caught by the generic handler and
surfaced as HTTP 500 `Failed to create purchase.` — never as a domain 409
Conflict. -/
theorem purchase_conflict_mapping (u : String) (b : Nat) (s si : Store) :
    ((∃ p, p ∈ s.purchases ∧ p.auth0_user_id = u ∧ p.book_id = b) →
      create_purchase u b s si = .error ⟨400, "User already owns this book."⟩) ∧
    (get_purchase_record u b s = none → (find_book s b).isSome = true →
      (∃ p, p ∈ si.purchases ∧ p.auth0_user_id = u ∧ p.book_id = b) →
      create_purchase u b s si = .error ⟨500, "Failed to create purchase."⟩) :=
  ⟨create_purchase_dup u b s si, create_purchase_race u b s si⟩

/-- C3 (witness): the error-mapping theorem applied to the concrete
duplicate and race stores. -/
theorem purchase_conflict_mapping_witness :
    (∃ p, p ∈ storeOwned.purchases ∧ p.auth0_user_id = "subject-a" ∧ p.book_id = 1) ∧
    create_purchase "subject-a" 1 storeOwned storeOwned =
      .error ⟨400, "User already owns this book."⟩ ∧
    (get_purchase_record "subject-a" 1 storeUnowned = none ∧
      (find_book storeUnowned 1).isSome = true) ∧
    create_purchase "subject-a" 1 storeUnowned storeOwned =
      .error ⟨500, "Failed to create purchase."⟩ :=
  ⟨⟨⟨5, "subject-a", 1⟩, by decide, rfl, rfl⟩,
   (purchase_conflict_mapping "subject-a" 1 storeOwned storeOwned).1
     ⟨⟨5, "subject-a", 1⟩, by decide, rfl, rfl⟩,
   ⟨by decide, by decide⟩,
   (purchase_conflict_mapping "subject-a" 1 storeUnowned storeOwned).2 (by decide) (by decide)
     ⟨⟨5, "subject-a", 1⟩, by decide, rfl, rfl⟩⟩

/-- C4 (counterexample): for a catalog item that does not exist (and no
entitlement row), `authorize` answers 403 Access Denied, not the claimed
404 NotFound. -/
theorem authorize_missing_item_cex :
    find_book emptyStore 1 = none ∧
    authorize_book_access "subject-a" 1 emptyStore =
      .error ⟨403, "Access Denied: Purchase required to access this book."⟩ ∧
    (403 : Nat) ≠ 404 := by
  exact ⟨by decide, by decide, by decide⟩

/-- C4 (amended): `authorize` returns AccessDenied (403) whenever no
Entitlement row exists for (subject, catalogItemId) — including when the
catalog item itself does not exist — and returns NotFound (404) only
when an Entitlement row exists but the item row is absent. -/
theorem authorize_behavior (u : String) (b : Nat) (s : Store) :
    (check_user_owns_book u b s = false →
      authorize_book_access u b s =
        .error ⟨403, "Access Denied: Purchase required to access this book."⟩) ∧
    (check_user_owns_book u b s = true → find_book s b = none →
      authorize_book_access u b s = .error ⟨404, "Book not found."⟩) :=
  ⟨authorize_denied u b s, authorize_owns_book_missing u b s⟩

/-- C4 (witness): the authorize theorem applied to the empty store (403
branch) and to a store with an entitlement but no book row (404
branch). -/
theorem authorize_behavior_witness :
    (check_user_owns_book "subject-a" 1 emptyStore = false ∧
      authorize_book_access "subject-a" 1 emptyStore =
        .error ⟨403, "Access Denied: Purchase required to access this book."⟩) ∧
    (check_user_owns_book "subject-a" 1 storeGhost = true ∧
      find_book storeGhost 1 = none ∧
      authorize_book_access "subject-a" 1 storeGhost = .error ⟨404, "Book not found."⟩) :=
  ⟨⟨by decide, (authorize_behavior "subject-a" 1 emptyStore).1 (by decide)⟩,
   ⟨by decide, by decide,
    (authorize_behavior "subject-a" 1 storeGhost).2 (by decide) (by decide)⟩⟩

/-- C5: for every authorized request (entitlement present, book found,
non-empty stored reference), `get_secure_book_path` strips the stored
reference to its bare basename — which contains no directory separator —
joins it onto the base directory, returns that path when the file exists,
and otherwise fails with the server-side 500 `Book file is missing from
server.`, a status distinct from the 403 AccessDenied; a stored reference
`../../etc/passwd` resolves to `/books/passwd` under base `/books`. -/
theorem resolve_secure_path_spec (u : String) (b : Nat) (base : String) (s : Store)
    (fsFiles : List String) (bk : Book)
    (howns : check_user_owns_book u b s = true)
    (hfb : find_book s b = some bk)
    (hfp : bk.filepath ≠ "") :
    ('/' ∉ (posixBasename bk.filepath).data) ∧
    (fsFiles.contains (osPathJoin base (posixBasename bk.filepath)) = true →
      get_secure_book_path u b base s fsFiles =
        .ok (osPathJoin base (posixBasename bk.filepath))) ∧
    (fsFiles.contains (osPathJoin base (posixBasename bk.filepath)) = false →
      get_secure_book_path u b base s fsFiles =
        .error ⟨500, "Book file is missing from server."⟩) ∧
    posixBasename "../../etc/passwd" = "passwd" ∧
    osPathJoin "/books" (posixBasename "../../etc/passwd") = "/books/passwd" ∧
    (500 : Nat) ≠ 403 := by
  refine ⟨posixBasename_no_slash bk.filepath, ?_, ?_, by decide, by decide, by decide⟩
  · intro hmem
    unfold get_secure_book_path
    rw [authorize_grants u b s bk howns hfb hfp]
    dsimp only
    rw [hmem]
    try rfl
  · intro hmem
    unfold get_secure_book_path
    rw [authorize_grants u b s bk howns hfb hfp]
    dsimp only
    rw [hmem]
    try rfl

/-- C5 (witness): the secure-path theorem applied to `storeOwned` with
the stored reference `1.pdf`, base `/books`, and the file present on the
server. -/
theorem resolve_secure_path_spec_witness :
    (check_user_owns_book "subject-a" 1 storeOwned = true ∧
      find_book storeOwned 1 = some bookOne ∧ bookOne.filepath ≠ "") ∧
    (('/' ∉ (posixBasename bookOne.filepath).data) ∧
      ((["/books/1.pdf"] : List String).contains
          (osPathJoin "/books" (posixBasename bookOne.filepath)) = true →
        get_secure_book_path "subject-a" 1 "/books" storeOwned ["/books/1.pdf"] =
          .ok (osPathJoin "/books" (posixBasename bookOne.filepath))) ∧
      ((["/books/1.pdf"] : List String).contains
          (osPathJoin "/books" (posixBasename bookOne.filepath)) = false →
        get_secure_book_path "subject-a" 1 "/books" storeOwned ["/books/1.pdf"] =
          .error ⟨500, "Book file is missing from server."⟩) ∧
      posixBasename "../../etc/passwd" = "passwd" ∧
      osPathJoin "/books" (posixBasename "../../etc/passwd") = "/books/passwd" ∧
      (500 : Nat) ≠ 403) :=
  ⟨⟨by decide, by decide, by decide⟩,
   resolve_secure_path_spec "subject-a" 1 "/books" storeOwned ["/books/1.pdf"] bookOne
     (by decide) (by decide) (by decide)⟩

set_option maxRecDepth 8192 in
/-- C6: the sanitizer rejects the two injection payloads, the overlong
string, the empty string and the whitespace-only string; it accepts the
three legitimate queries unaltered; and every accepted input is returned
exactly as its stripped original text. -/
theorem sanitize_expected_inputs :
    (validate_and_sanitize_query "; DROP TABLE x; --").isOk = false ∧
    (validate_and_sanitize_query injectionQuery).isOk = false ∧
    (validate_and_sanitize_query aTimes256).isOk = false ∧
    (validate_and_sanitize_query "").isOk = false ∧
    (validate_and_sanitize_query "   ").isOk = false ∧
    validate_and_sanitize_query "The Great Gatsby" = .ok "The Great Gatsby" ∧
    validate_and_sanitize_query oBrienQuery = .ok oBrienQuery ∧
    validate_and_sanitize_query "sci-fi & fantasy" = .ok "sci-fi & fantasy" ∧
    ∀ q r, validate_and_sanitize_query q = .ok r → r = pyStrip q := by
  refine ⟨by decide, by decide, by decide, by decide, by decide, by decide, by decide, by decide,
    ?_⟩
  intro q r h
  unfold validate_and_sanitize_query at h
  split at h
  · exact absurd h (by simp)
  · simp only [] at h
    split at h
    · exact absurd h (by simp)
    · split at h
      · exact absurd h (by simp)
      · split at h
        · exact absurd h (by simp)
        · exact (Except.ok.injEq _ _ ▸ h).symm

/-- C6 (witness): the sanitizer theorem applied to a padded accepted
query: the output is the stripped original. -/
theorem sanitize_expected_inputs_witness :
    validate_and_sanitize_query " The Great Gatsby " = .ok "The Great Gatsby" ∧
    "The Great Gatsby" = pyStrip " The Great Gatsby " :=
  ⟨by decide,
   sanitize_expected_inputs.2.2.2.2.2.2.2.2 " The Great Gatsby " "The Great Gatsby" (by decide)⟩

/-- C7: on a cart that already holds a line for the book (book present
and available), adding `q` more fails with the `Maximum 10` error when
the new total exceeds 10 — the error aborts the transaction, so the line
keeps its quantity — and otherwise increments that line in place, leaving
the number of cart lines unchanged (no second line for the pair is ever
created). -/
theorem add_item_cap_and_in_place (s : Store) (u : String) (b : Nat) (q : Int) (book : Book)
    (c : Cart) (it : CartItem)
    (hfb : find_book s b = some book)
    (hav : book.is_available = true)
    (hcart : s.carts.find? (fun c2 => decide (c2.user_id = u)) = some c)
    (hitem : s.cart_items.find? (fun ci => decide (ci.cart_id = c.id ∧ ci.book_id = b)) = some it) :
    (it.quantity + q > 10 →
      CartDAO.add_item u b q s = .error "Maximum 10 of same item allowed in cart") ∧
    (¬(it.quantity + q > 10) →
      CartDAO.add_item u b q s = .ok
        ({ s with cart_items := (updateFirstCartItem s.cart_items
            (fun ci => decide (ci.cart_id = c.id ∧ ci.book_id = b))
            (fun ci => { ci with quantity := ci.quantity + q })) },
         ⟨it.id, b, q⟩) ∧
      (updateFirstCartItem s.cart_items
          (fun ci => decide (ci.cart_id = c.id ∧ ci.book_id = b))
          (fun ci => { ci with quantity := ci.quantity + q })).length =
        s.cart_items.length) := by
  obtain ⟨h1, h2⟩ := add_item_existing s u b q book c it hfb hav hcart hitem
  exact ⟨h1, fun h10 => ⟨h2 h10, updateFirstCartItem_length _ _ _⟩⟩

/-- C7 (witness): adding 8 copies to a fresh cart and then 5 more: the
second call is rejected by the cap theorem and the stored quantity stays
8. -/
theorem add_item_cap_and_in_place_witness :
    CartDAO.add_item "subject-a" 1 8 storeC7pre = .ok (storeC7, ⟨2, 1, 8⟩) ∧
    storeC7.cart_items = [⟨2, 1, 1, 8, 12⟩] ∧
    ((8 : Int) + 5 > 10) ∧
    CartDAO.add_item "subject-a" 1 5 storeC7 =
      .error "Maximum 10 of same item allowed in cart" :=
  ⟨by decide, by decide, by decide,
   (add_item_cap_and_in_place storeC7 "subject-a" 1 5 bookOne ⟨1, "subject-a"⟩
       ⟨2, 1, 1, 8, 12⟩ (by decide) (by decide) (by decide) (by decide)).1 (by decide)⟩

/-- C8: the cart view total is the sum over its lines of the price
snapshot times the quantity, while a successfully created order is
totalled from the current catalog price of each line — the snapshot never
enters — and the two differ on the concrete store whose catalog price
changed after the add (display total 10 versus order total 12). -/
theorem totals_snapshot_vs_current (u : String) (s : Store) (n : String)
    (items : List CartViewItem) (addr pm : String) (s1 : Store) (res : OrderResult) :
    ((CartDAO.get_cart u s).total_amount =
      ((CartDAO.get_cart u s).items.map (fun it => it.price * it.quantity)).sum) ∧
    (OrderDAO.create_order u n items addr pm s = .ok (s1, res) →
      res.total_amount = (items.map (fun it =>
        (((find_book s it.book_id).map Book.price).getD 0) * it.quantity)).sum) ∧
    ((CartDAO.get_cart "subject-a" storeC1).total_amount = 10 ∧
      (routeCreateOrder "subject-a" payloadOk "ORD-1" storeC1).toOption.map
        (fun x => x.2.total_amount) = some 12 ∧
      (10 : Int) ≠ 12) := by
  refine ⟨get_cart_total u s, ?_, by decide, by decide, by decide⟩
  intro h
  obtain ⟨_, _, _, _, _, _, ds, hloop⟩ := create_order_ok u n items addr pm s s1 res h
  exact order_items_loop_total s items res.total_amount ds hloop

/-- C8 (witness): the totals theorem applied to `storeC1`: the concrete
pending order created from the snapshot-10 cart is totalled 12 from the
current catalog price. -/
theorem totals_snapshot_vs_current_witness :
    OrderDAO.create_order "subject-a" "ORD-1" itemsC8 "123 Main Street, City, State 12345"
      "dummy" storeC1 = .ok (storeC8After, resC8) ∧
    resC8.total_amount = (itemsC8.map (fun it =>
      (((find_book storeC1 it.book_id).map Book.price).getD 0) * it.quantity)).sum :=
  ⟨by decide,
   (totals_snapshot_vs_current "subject-a" storeC1 "ORD-1" itemsC8
       "123 Main Street, City, State 12345" "dummy" storeC8After resC8).2.1 (by decide)⟩

/-- C9: when every order with the requested number belongs to a different
subject — in particular when another subject owns it, or when no such
order exists at all — the lookup route answers with the one fixed 404
response, and every error this route can produce has status 404, never
403. -/
theorem order_lookup_isolation (s : Store) (n u : String) (e : HttpError) :
    ((∀ o, o ∈ s.orders → o.order_number = n → o.user_id ≠ u) →
      routeGetOrder u n s = .error ⟨404, "Order not found"⟩) ∧
    (routeGetOrder u n s = .error e → e.status = 404) :=
  ⟨routeGetOrder_not_found u n s, routeGetOrder_error_status u n s e⟩

/-- C9 (witness): another subject requesting `ORD-9` — owned by
`subject-a` — receives the same 404 as a lookup on an empty store. -/
theorem order_lookup_isolation_witness :
    (∀ o, o ∈ storeC9.orders → o.order_number = "ORD-9" → o.user_id ≠ "subject-b") ∧
    routeGetOrder "subject-b" "ORD-9" storeC9 = .error ⟨404, "Order not found"⟩ ∧
    routeGetOrder "subject-b" "ORD-9" storeC9 =
      routeGetOrder "subject-b" "ORD-9" emptyStore :=
  ⟨by decide,
   (order_lookup_isolation storeC9 "ORD-9" "subject-b" ⟨404, "Order not found"⟩).1 (by decide),
   by decide⟩

/-- C10: the DRM gate opens exactly when some purchase row exists for the
(subject, book) pair — the row carries no payment or completion status —
so a row written by the direct purchase endpoint immediately opens the
gate, while a successful cart/checkout run leaves the purchase table
exactly as it found it. -/
theorem drm_gate_characterization (u : String) (b : Nat) (s si s2 : Store) (pr : Purchase)
    (payload : CheckoutRequest) (n : String) (s' : Store) (r : OrderResponse) :
    (check_user_owns_book u b s = true ↔
      ∃ p, p ∈ s.purchases ∧ p.auth0_user_id = u ∧ p.book_id = b) ∧
    (create_purchase u b s si = .ok (s2, pr) → check_user_owns_book u b s2 = true) ∧
    (routeCreateOrder u payload n s = .ok (s', r) → s'.purchases = s.purchases) := by
  refine ⟨check_user_owns_book_iff u b s, ?_, routeCreateOrder_ok_purchases u payload n s s' r⟩
  intro h
  obtain ⟨_, hpur, _⟩ := create_purchase_ok_elim u b s si s2 pr h
  rw [check_user_owns_book_iff]
  refine ⟨⟨si.next_id, u, b⟩, ?_, rfl, rfl⟩
  rw [hpur]
  exact List.mem_append_right _ (by simp)

/-- C10 (witness): the gate theorem applied to the concrete direct
purchase (gate opens at once) and to the concrete completed checkout (no
purchase row written). -/
theorem drm_gate_characterization_witness :
    create_purchase "subject-a" 1 storeUnowned storeUnowned =
      .ok (storeAfterPurchase, ⟨6, "subject-a", 1⟩) ∧
    check_user_owns_book "subject-a" 1 storeAfterPurchase = true ∧
    routeCreateOrder "subject-a" payloadOk "ORD-1" storeC1 = .ok (storeC1After, respC1) ∧
    storeC1After.purchases = storeC1.purchases :=
  ⟨by decide,
   (drm_gate_characterization "subject-a" 1 storeUnowned storeUnowned storeAfterPurchase
       ⟨6, "subject-a", 1⟩ payloadOk "ORD-1" storeC1After respC1).2.1 (by decide),
   by decide,
   (drm_gate_characterization "subject-a" 1 storeC1 storeC1 storeC1 ⟨0, "x", 0⟩ payloadOk
       "ORD-1" storeC1After respC1).2.2 (by decide)⟩
